import Mathlib

/-!
Shallow embedding of the SpaceX launch-query client (`client.py`) and its
specification, for verification of the frozen claims.

Modelling conventions:
* A Python `date` is modelled by its day number relative to 1970-01-01 (UTC):
  Python date arithmetic (`timedelta(days=1)`, ordering) is ordinal
  arithmetic, and `datetime(y, m, d, tzinfo=timezone.utc).timestamp()` equals
  86400 times that day number.  Python `date` objects are always truthy, so
  `if start_date:` tests `start_date is not None`.
* A JSON field of a record is `PyField α`: absent from the dict (`missing`),
  present with JSON null (`null`), or present with a value (`val`).
* Python `float` arithmetic is modelled over `ℚ`; `mass_kg` values are
  modelled as numbers or strings (`MassV`), the forms the claims exercise.
* Exceptions (`KeyError`, `TypeError`, `ValueError`, `requests` errors) are
  modelled with `Except PyErr`.
* The HTTP transport is a parameter `post : ApiRequest → PostResult`; each
  operation also returns the list of requests it issued, so "no remote query
  is issued" is expressible.
-/

namespace IMC

/-- A Python `date`, modelled as days since 1970-01-01 (UTC). -/
abbrev PyDate := Int

/-- `end_date + timedelta(days=1)`. -/
def nextDay (d : PyDate) : PyDate := d + 1

/-- `int(datetime(d.year, d.month, d.day, tzinfo=timezone.utc).timestamp())`:
epoch seconds of the date at 00:00:00 UTC. -/
def utcMidnightEpoch (d : PyDate) : Int := 86400 * d

/-- `if start_date and end_date and start_date > end_date:` — Python dates are
always truthy, so the guard fires iff both are given and start is after end. -/
def shortCircuits (start_date end_date : Option PyDate) : Bool :=
  match start_date, end_date with
  | some s, some e => decide (e < s)
  | _, _ => false

/-- The `date_unix` filter dict: optional keys `$gte` and `$lt`. -/
structure DateUnixFilter where
  gte : Option Int
  lt : Option Int
deriving DecidableEq, Repr

/-- `client.py` lines 38-48: the filter built by `get_launches`. -/
def launchesDateFilter (start_date end_date : Option PyDate) : DateUnixFilter :=
  let f : DateUnixFilter := ⟨none, none⟩
  let f := match start_date with
    | some sd => { f with gte := some (utcMidnightEpoch sd) }
    | none => f
  match end_date with
  | some ed => { f with lt := some (utcMidnightEpoch (nextDay ed)) }
  | none => f

/-- `client.py` lines 95-102: the filter built by `get_heaviest_launch`. -/
def heaviestDateFilter (start_date end_date : Option PyDate) : DateUnixFilter :=
  let f : DateUnixFilter := ⟨none, none⟩
  let f := match start_date with
    | some sd => { f with gte := some (utcMidnightEpoch sd) }
    | none => f
  match end_date with
  | some ed => { f with lt := some (utcMidnightEpoch (nextDay ed)) }
  | none => f

/-- Dict truthiness of the filter: nonempty iff some key is present. -/
def filterTruthy (f : DateUnixFilter) : Bool := f.gte.isSome || f.lt.isSome

/-- `query_body`: `none` models the empty dict, `some f` models
`\x7b"date_unix": f\x7d` (lines 50-52). -/
def launchesQueryBody (start_date end_date : Option PyDate) : Option DateUnixFilter :=
  let f := launchesDateFilter start_date end_date
  if filterTruthy f then some f else none

/-- `query_body` of `get_heaviest_launch` (line 104). -/
def heaviestQueryBody (start_date end_date : Option PyDate) : Option DateUnixFilter :=
  let f := heaviestDateFilter start_date end_date
  if filterTruthy f then some f else none

/-- The outbound POST request, as the two call sites build it: URL, JSON query
body, select fields, whether payloads are populated with id and mass, the
pagination flag, and the `timeout=` keyword argument (in seconds) if passed. -/
structure ApiRequest where
  url : String
  query : Option DateUnixFilter
  selectFields : List String
  populatePayloads : Bool
  pagination : Bool
  timeout : Option Nat
deriving DecidableEq, Repr

/-- The client object: holds only the base URL. -/
structure SpaceXClient where
  base_url : String
deriving DecidableEq, Repr

/-- `SpaceXClient._url`. -/
def SpaceXClient.url (c : SpaceXClient) (path : String) : String :=
  c.base_url ++ "/" ++ path

/-- The request issued by `get_launches` (lines 54-63): no populate option and
no `timeout=` argument. -/
def SpaceXClient.launchesRequest (c : SpaceXClient)
    (start_date end_date : Option PyDate) : ApiRequest :=
  { url := c.url "launches/query"
    query := launchesQueryBody start_date end_date
    selectFields := ["id", "date_unix", "payloads"]
    populatePayloads := false
    pagination := false
    timeout := none }

/-- The request issued by `get_heaviest_launch` (lines 106-117): populates
payloads with id and mass_kg and passes `timeout=20`. -/
def SpaceXClient.heaviestRequest (c : SpaceXClient)
    (start_date end_date : Option PyDate) : ApiRequest :=
  { url := c.url "launches/query"
    query := heaviestQueryBody start_date end_date
    selectFields := ["id", "date_unix", "payloads"]
    populatePayloads := true
    pagination := false
    timeout := some 20 }

/-- Python exceptions the embedded code can raise. -/
inductive PyErr
  | keyError
  | typeError
  | valueError
  | connectionError
  | httpError (status : Nat)
deriving DecidableEq, Repr

/-- A JSON field of a dict: absent, present-null, or present with a value. -/
inductive PyField (α : Type)
  | missing
  | null
  | val (a : α)
deriving DecidableEq, Repr

/-- A `mass_kg` value when present and non-null: a JSON number or a string. -/
inductive MassV
  | num (q : ℚ)
  | str (s : String)
deriving DecidableEq, Repr

/-- An element of a `payloads` list (and of `Launch.payload_ids`): a bare
identifier string, Python `None`, or a (possibly populated) payload dict with
an `id` field, a `mass_kg` field, and a count of any other keys. -/
inductive PyVal
  | str (s : String)
  | pynone
  | pdict (id : PyField String) (mass : PyField MassV) (extra : Nat)
deriving DecidableEq, Repr

/-- A record (`doc`) of the response: `id`, `date_unix` and `payloads` fields,
plus a count of any other keys present (relevant only for dict truthiness). -/
structure Doc where
  id : PyField String
  date_unix : PyField Int
  payloads : PyField (List PyVal)
  extra : Nat := 0
deriving DecidableEq, Repr

/-- `doc.get(k) is not None`: the field is present with a non-null value. -/
def PyField.isVal {α : Type} : PyField α → Bool
  | .val _ => true
  | _ => false

/-- Whether the key is present in the dict at all (null included). -/
def PyField.isPresent {α : Type} : PyField α → Bool
  | .missing => false
  | _ => true

/-- `doc.get("payloads") or []`: the list when present, non-null and nonempty;
otherwise the empty list (an empty list is falsy, and `[] or []` is `[]`). -/
def pyOrEmpty : PyField (List PyVal) → List PyVal
  | .val l => l
  | _ => []

/-- Dict truthiness of a record: it is truthy iff it has at least one key. -/
def docTruthy (d : Doc) : Bool :=
  d.id.isPresent || d.date_unix.isPresent || d.payloads.isPresent || decide (d.extra ≠ 0)

/-- The `Launch` dataclass.  `id` is `Option String` because
`heaviest_doc["id"]` can deliver Python `None`; `launch_time` is kept as the
epoch seconds passed to `datetime.fromtimestamp(·, tz=timezone.utc)`. -/
structure Launch where
  id : Option String
  launch_time : Int
  payload_ids : List PyVal
  total_payload_mass_kg : Option ℚ := none
deriving DecidableEq, Repr

/-- Lines 69-77: the list comprehension of `get_launches` — keep exactly the
docs whose `id` and `date_unix` are present and non-null, in response order,
and map each to a `Launch` with the raw payload list and no total mass. -/
def launchesOfDocs (docs : List Doc) : List Launch :=
  docs.filterMap fun d =>
    match d.id, d.date_unix with
    | .val i, .val n => some { id := some i, launch_time := n, payload_ids := pyOrEmpty d.payloads }
    | _, _ => none

/-- Value of digits read left to right. -/
def digitsVal (l : List Char) : Nat :=
  l.foldl (fun a c => 10 * a + (c.toNat - 48)) 0

/-- `float(s)` on a plain decimal string: optional sign, digits, optional
point and fraction digits; anything else raises `ValueError`.  (Python also
accepts exotic forms such as exponents — out of scope of the claims.) -/
def parseFloat (s : String) : Option ℚ :=
  let cs := s.toList
  let sign : ℚ × List Char :=
    match cs with
    | '-' :: r => (-1, r)
    | '+' :: r => (1, r)
    | _ => (1, cs)
  let intPart := sign.2.takeWhile Char.isDigit
  let rest := sign.2.dropWhile Char.isDigit
  match rest with
  | [] =>
    if intPart.isEmpty then none
    else some (sign.1 * (digitsVal intPart : ℚ))
  | '.' :: frac =>
    if frac.all Char.isDigit && !(intPart.isEmpty && frac.isEmpty) then
      some (sign.1 * ((digitsVal intPart : ℚ) + (digitsVal frac : ℚ) / 10 ^ frac.length))
    else none
  | _ => none

/-- `float(p.get("mass_kg") or 0.0)` (line 132): a missing, null, or falsy
(zero number, empty string) mass yields `0.0`; a number is its own value; a
nonempty string goes through `float(str)` and raises `ValueError` when it is
not numeric. -/
def massContrib : PyField MassV → Except PyErr ℚ
  | .missing => .ok 0
  | .null => .ok 0
  | .val (.num q) => .ok q
  | .val (.str s) =>
    if s = "" then .ok 0
    else
      match parseFloat s with
      | some q => .ok q
      | none => .error .valueError

/-- One iteration of the mass loop (line 131-132): a dict entry adds its mass
contribution, anything else is skipped. -/
def massStep (acc : ℚ) : PyVal → Except PyErr ℚ
  | .pdict _ mass _ => do
    let c ← massContrib mass
    pure (acc + c)
  | _ => pure acc

/-- Lines 129-132: sum the masses of the dict entries of the payload list;
non-dict entries are skipped. -/
def totalMass (d : Doc) : Except PyErr ℚ :=
  (pyOrEmpty d.payloads).foldlM massStep 0

/-- The total mass when it computes without an exception (0 otherwise). -/
def massF (d : Doc) : ℚ :=
  match totalMass d with
  | .ok q => q
  | .error _ => 0

/-- Whether `totalMass` computes without an exception. -/
def massOk (d : Doc) : Bool :=
  match totalMass d with
  | .ok _ => true
  | .error _ => false

/-- Lines 124-136: the selection loop over the docs, carrying
`(heaviest_doc, heaviest_mass)`; a candidate replaces the current winner only
when `heaviest_mass is None or total_mass > heaviest_mass`. -/
def selectLoop : List Doc → Option Doc × Option ℚ → Except PyErr (Option Doc × Option ℚ)
  | [], acc => .ok acc
  | d :: ds, acc => do
    let m ← totalMass d
    match acc with
    | (_, none) => selectLoop ds (some d, some m)
    | (hd, some hm) =>
      if hm < m then selectLoop ds (some d, some m)
      else selectLoop ds (hd, some hm)

/-- The selection loop started from `(None, None)`. -/
def selectHeaviest (docs : List Doc) : Except PyErr (Option Doc × Option ℚ) :=
  selectLoop docs (none, none)

/-- `p["id"] if isinstance(p, dict) else p` (line 144): a dict is unwrapped to
its `id` value (`KeyError` when the key is absent, Python `None` when null);
anything else passes through unchanged. -/
def unwrapPayload : PyVal → Except PyErr PyVal
  | .pdict i _ _ =>
    match i with
    | .missing => .error .keyError
    | .null => .ok .pynone
    | .val s => .ok (.str s)
  | p => .ok p

/-- `int(doc["date_unix"])`: `KeyError` when absent, `TypeError` on null. -/
def intItem : PyField Int → Except PyErr Int
  | .missing => .error .keyError
  | .null => .error .typeError
  | .val n => .ok n

/-- `doc["id"]`: `KeyError` when absent; a null value is Python `None`. -/
def strItem : PyField String → Except PyErr (Option String)
  | .missing => .error .keyError
  | .null => .ok none
  | .val s => .ok (some s)

/-- The result of `requests.post`: a transport failure, or a response with a
status code and the `docs` list of its JSON body. -/
inductive PostResult
  | transportError
  | response (status : Nat) (docs : List Doc)

/-- `resp.raise_for_status()`: raises exactly for 4xx and 5xx status codes. -/
def raise_for_status (status : Nat) : Except PyErr Unit :=
  if 400 ≤ status ∧ status < 600 then .error (.httpError status) else .ok ()

/-- Result of one public operation: the returned value or the exception, plus
the list of outbound requests that were issued during the call. -/
structure OpResult (α : Type) where
  result : Except PyErr α
  requests : List ApiRequest

/-- `SpaceXClient.get_launches` (lines 22-79), with the transport as a
parameter. -/
def SpaceXClient.get_launches (c : SpaceXClient)
    (start_date end_date : Option PyDate)
    (post : ApiRequest → PostResult) : OpResult (List Launch) :=
  if shortCircuits start_date end_date then ⟨.ok [], []⟩
  else
    let req := c.launchesRequest start_date end_date
    match post req with
    | .transportError => ⟨.error .connectionError, [req]⟩
    | .response status docs =>
      match raise_for_status status with
      | .error e => ⟨.error e, [req]⟩
      | .ok _ => ⟨.ok (launchesOfDocs docs), [req]⟩

/-- Lines 119-148 of `get_heaviest_launch`, after the response arrived: the
empty-docs check (`if not launches: return None`), the selection loop, the
`if not heaviest_doc: return None` check (which also fires when the winning
dict is empty, hence falsy), then the `launch_time`, `payload_ids` and `id`
lookups in source evaluation order. -/
def heaviestOfDocs (docs : List Doc) : Except PyErr (Option Launch) :=
  if docs.isEmpty then .ok none
  else
    (selectHeaviest docs).bind fun sel =>
      match sel with
      | (none, _) => .ok none
      | (some w, hm) =>
        if !docTruthy w then .ok none
        else
          (intItem w.date_unix).bind fun du =>
            ((pyOrEmpty w.payloads).mapM unwrapPayload).bind fun pids =>
              (strItem w.id).bind fun idv =>
                .ok (some { id := idv, launch_time := du, payload_ids := pids,
                            total_payload_mass_kg := hm })

/-- `SpaceXClient.get_heaviest_launch` (lines 81-148), with the transport as a
parameter. -/
def SpaceXClient.get_heaviest_launch (c : SpaceXClient)
    (start_date end_date : Option PyDate)
    (post : ApiRequest → PostResult) : OpResult (Option Launch) :=
  if shortCircuits start_date end_date then ⟨.ok none, []⟩
  else
    let req := c.heaviestRequest start_date end_date
    match post req with
    | .transportError => ⟨.error .connectionError, [req]⟩
    | .response status docs =>
      match raise_for_status status with
      | .error e => ⟨.error e, [req]⟩
      | .ok _ => ⟨heaviestOfDocs docs, [req]⟩

/-! Specification-side definitions, used to state the claims about the
embedded code. -/

/-- A record that the listing keeps: identifier and timestamp both present
and non-null. -/
def wellFormedDoc (d : Doc) : Bool :=
  d.id.isVal && d.date_unix.isVal

/-- The `Launch` a well-formed record is mapped to by the listing (on docs
kept by `wellFormedDoc` this coincides with the comprehension; the fallbacks
for absent fields are never reached there). -/
def mkLaunch (d : Doc) : Launch :=
  { id := match d.id with | .val i => some i | _ => none
    launch_time := match d.date_unix with | .val n => n | _ => 0
    payload_ids := pyOrEmpty d.payloads }

/-- The spec's selection rule: `w` occurs in the list, every candidate before
it has strictly smaller total mass, and every candidate after it has total
mass at most that of `w` — i.e. `w` is the first candidate attaining the
maximum, and a later equal-mass candidate never replaces it. -/
def FirstStrictMax (f : Doc → ℚ) (l : List Doc) (w : Doc) : Prop :=
  ∃ p q, l = p ++ w :: q ∧ (∀ d ∈ p, f d < f w) ∧ (∀ d ∈ q, f d ≤ f w)

/-- A payload entry whose mass computation cannot raise: anything except a
dict carrying a nonempty-string mass value. -/
def safeMass : PyVal → Bool
  | .pdict _ (.val (.str s)) _ => s = ""
  | _ => true

/-- Modelled from the spec: the contribution of one payload reference to the
total mass — an expanded record contributes its numeric mass, and a null,
missing or non-numeric mass, a bare identifier, or any other entry
contributes 0.0. -/
def specContrib : PyVal → ℚ
  | .pdict _ (.val (.num q)) _ => q
  | _ => 0

/-! Concrete fixtures used by witnesses and counterexamples. -/

/-- A client with the default base URL. -/
def client0 : SpaceXClient := ⟨"https://api.spacexdata.com/v4"⟩

/-- A record with no fields at all: the empty dict. -/
def emptyDoc : Doc := { id := .missing, date_unix := .missing, payloads := .missing }

/-- A record with a timestamp and payloads but no `id` key. -/
def noIdDoc : Doc := { id := .missing, date_unix := .val 100, payloads := .val [] }

/-- A record with an `id` but no `date_unix` key. -/
def noDateDoc : Doc := { id := .val "LAUNCH_X", date_unix := .missing, payloads := .val [] }

/-- A record whose payload carries a non-numeric string mass. -/
def badMassDoc : Doc :=
  { id := .val "LAUNCH_B", date_unix := .val 5,
    payloads := .val [.pdict (.val "PAY_B") (.val (.str "heavy")) 0] }

/-- A record whose only payload has a null mass (total 0.0). -/
def nullOnlyDoc : Doc :=
  { id := .val "LAUNCH_NULL_ONLY", date_unix := .val 1657886400,
    payloads := .val [.pdict (.val "PAY_NULL") .null 0] }

/-- A record with payload masses 1.5 and 0.5 (total 2.0). -/
def twoPayloadDoc : Doc :=
  { id := .val "LAUNCH_TWO", date_unix := .val 1658318400,
    payloads := .val [.pdict (.val "PAY_1") (.val (.num (3/2))) 0,
      .pdict (.val "PAY_2") (.val (.num (1/2))) 0] }

/-- First of two records with equal total mass 7 and equal timestamps. -/
def tieDocA : Doc :=
  { id := .val "LAUNCH_T1", date_unix := .val 100,
    payloads := .val [.pdict (.val "PAY_T1") (.val (.num 7)) 0] }

/-- Second of two records with equal total mass 7 and equal timestamps. -/
def tieDocB : Doc :=
  { id := .val "LAUNCH_T2", date_unix := .val 100,
    payloads := .val [.pdict (.val "PAY_T2") (.val (.num 7)) 0] }

/-- A record with null/numeric/bare/missing-mass payload entries (total 3). -/
def mixedDoc : Doc :=
  { id := .val "LAUNCH_M", date_unix := .val 50,
    payloads := .val [.pdict (.val "PAY_M1") .null 0,
      .pdict (.val "PAY_M2") (.val (.num 3)) 0,
      .str "PAY_M3",
      .pdict (.val "PAY_M4") .missing 0] }

/-- A record whose payload list holds an expanded dict and a bare string. -/
def dictPayloadDoc : Doc :=
  { id := .val "LAUNCH_D", date_unix := .val 100,
    payloads := .val [.pdict (.val "PAY_D") (.val (.num 5100)) 0, .str "PAY_S"] }

/-! Helper lemmas. -/

theorem massOk_eq {d : Doc} (h : massOk d = true) : totalMass d = .ok (massF d) := by
  unfold massOk at h
  unfold massF
  cases htm : totalMass d with
  | ok q => rfl
  | error e => rw [htm] at h; simp at h

theorem raise_for_status_200 : raise_for_status 200 = .ok () := rfl

/-- Claim C1: when the inputs do not short-circuit, both public operations
build the same `date_unix` filter and the same query body; the request of
each operation carries that body; the `$gte` key is present iff `start_date`
is given, with value the epoch seconds of that date at 00:00:00 UTC; the
`$lt` key is present iff `end_date` is given, with value the epoch seconds of
the following calendar day at 00:00:00 UTC; and with neither bound given the
filter and the query body are empty. -/
theorem claim_C1_filter_construction (s e : Option PyDate)
    (h : shortCircuits s e = false) :
    launchesDateFilter s e = heaviestDateFilter s e ∧
    launchesQueryBody s e = heaviestQueryBody s e ∧
    (∀ c : SpaceXClient, (c.launchesRequest s e).query = launchesQueryBody s e ∧
      (c.heaviestRequest s e).query = heaviestQueryBody s e) ∧
    (launchesDateFilter s e).gte = s.map utcMidnightEpoch ∧
    (launchesDateFilter s e).lt = e.map (fun d => utcMidnightEpoch (nextDay d)) ∧
    (s = none → e = none →
      launchesDateFilter s e = ⟨none, none⟩ ∧ launchesQueryBody s e = none) := by
  refine ⟨?_, ?_, fun c => ⟨rfl, rfl⟩, ?_, ?_, ?_⟩ <;>
    cases s <;> cases e <;>
      simp [launchesDateFilter, heaviestDateFilter, launchesQueryBody,
        heaviestQueryBody, filterTruthy]

/-- Witness for C1, at start day 17563 (2018-02-01) and end day 17590
(2018-02-28). -/
theorem claim_C1_filter_construction_witness :
    shortCircuits (some 17563) (some 17590) = false ∧
    (launchesDateFilter (some 17563) (some 17590) =
        heaviestDateFilter (some 17563) (some 17590) ∧
      launchesQueryBody (some 17563) (some 17590) =
        heaviestQueryBody (some 17563) (some 17590) ∧
      (∀ c : SpaceXClient,
        (c.launchesRequest (some 17563) (some 17590)).query =
          launchesQueryBody (some 17563) (some 17590) ∧
        (c.heaviestRequest (some 17563) (some 17590)).query =
          heaviestQueryBody (some 17563) (some 17590)) ∧
      (launchesDateFilter (some 17563) (some 17590)).gte =
        (some 17563 : Option PyDate).map utcMidnightEpoch ∧
      (launchesDateFilter (some 17563) (some 17590)).lt =
        (some 17590 : Option PyDate).map (fun d => utcMidnightEpoch (nextDay d)) ∧
      ((some 17563 : Option PyDate) = none → (some 17590 : Option PyDate) = none →
        launchesDateFilter (some 17563) (some 17590) = ⟨none, none⟩ ∧
        launchesQueryBody (some 17563) (some 17590) = none)) :=
  ⟨by decide, claim_C1_filter_construction _ _ (by decide)⟩

/-- Claim C3: with both dates given and the start strictly after the end,
both operations return their empty result and issue no request at all,
whatever the transport would answer. -/
theorem claim_C3_short_circuit (c : SpaceXClient) (s e : PyDate)
    (post : ApiRequest → PostResult) (h : e < s) :
    c.get_launches (some s) (some e) post = ⟨.ok [], []⟩ ∧
    c.get_heaviest_launch (some s) (some e) post = ⟨.ok none, []⟩ := by
  have hs : shortCircuits (some s) (some e) = true := by
    simp [shortCircuits, h]
  constructor <;>
    simp [SpaceXClient.get_launches, SpaceXClient.get_heaviest_launch, hs]

/-- Witness for C3: start day 3, end day 2, a transport that would fail. -/
theorem claim_C3_short_circuit_witness :
    (2 : PyDate) < 3 ∧
    (client0.get_launches (some 3) (some 2) (fun _ => .transportError) = ⟨.ok [], []⟩ ∧
      client0.get_heaviest_launch (some 3) (some 2) (fun _ => .transportError) =
        ⟨.ok none, []⟩) :=
  ⟨by decide, claim_C3_short_circuit client0 3 2 _ (by decide)⟩

/-- Counterexample to C7 as stated: a 300 response is not 2xx, yet
`raise_for_status` does not raise for it, and both operations return an
ordinary (empty) result instead of failing. -/
theorem claim_C7_counterexample :
    raise_for_status 300 = .ok () ∧
    (client0.get_launches none none (fun _ => .response 300 [])).result = .ok [] ∧
    (client0.get_heaviest_launch none none (fun _ => .response 300 [])).result =
      .ok none := by
  exact ⟨rfl, rfl, rfl⟩

/-- Claim C7 as amended: a transport-level failure, or a 4xx or 5xx response,
makes both operations fail with the propagated error and no partial result;
3xx responses are not raised by the status check. -/
theorem claim_C7_fatal_errors (c : SpaceXClient) (s e : Option PyDate)
    (status : Nat) (docs : List Doc)
    (h : shortCircuits s e = false) (hst : 400 ≤ status ∧ status < 600) :
    (c.get_launches s e (fun _ => .transportError)).result = .error .connectionError ∧
    (c.get_heaviest_launch s e (fun _ => .transportError)).result =
      .error .connectionError ∧
    (c.get_launches s e (fun _ => .response status docs)).result =
      .error (.httpError status) ∧
    (c.get_heaviest_launch s e (fun _ => .response status docs)).result =
      .error (.httpError status) := by
  refine ⟨?_, ?_, ?_, ?_⟩ <;>
    simp [SpaceXClient.get_launches, SpaceXClient.get_heaviest_launch, h,
      raise_for_status, hst.1, hst.2]

/-- Witness for C7 as amended: status 404 on the unbounded query. -/
theorem claim_C7_fatal_errors_witness :
    shortCircuits none none = false ∧ (400 ≤ 404 ∧ 404 < 600) ∧
    ((client0.get_launches none none (fun _ => .transportError)).result =
        .error .connectionError ∧
      (client0.get_heaviest_launch none none (fun _ => .transportError)).result =
        .error .connectionError ∧
      (client0.get_launches none none (fun _ => .response 404 [])).result =
        .error (.httpError 404) ∧
      (client0.get_heaviest_launch none none (fun _ => .response 404 [])).result =
        .error (.httpError 404)) :=
  ⟨by decide, by decide,
    claim_C7_fatal_errors client0 none none 404 [] (by decide) (by decide)⟩

/-- Counterexample to C8 as stated: the listing operation issues its outbound
request with no `timeout=` argument at all. -/
theorem claim_C8_counterexample :
    (client0.get_launches none none (fun _ => .response 200 [])).requests =
      [client0.launchesRequest none none] ∧
    (client0.launchesRequest none none).timeout = none := by
  exact ⟨rfl, rfl⟩

/-- Claim C8 as amended: only the aggregation operation's outbound call
carries a fixed 20-second deadline; the listing operation's call carries
none. -/
theorem claim_C8_timeout_only_aggregation (c : SpaceXClient)
    (s e : Option PyDate) (post : ApiRequest → PostResult) :
    (c.heaviestRequest s e).timeout = some 20 ∧
    (c.launchesRequest s e).timeout = none ∧
    ((c.get_heaviest_launch s e post).requests.all
      fun r => r.timeout == some 20) = true ∧
    ((c.get_launches s e post).requests.all fun r => r.timeout == none) = true := by
  refine ⟨rfl, rfl, ?_, ?_⟩
  · unfold SpaceXClient.get_heaviest_launch
    cases hsc : shortCircuits s e
    · simp only [Bool.false_eq_true, if_false]
      split
      · simp [SpaceXClient.heaviestRequest]
      · split <;> simp [SpaceXClient.heaviestRequest]
    · simp
  · unfold SpaceXClient.get_launches
    cases hsc : shortCircuits s e
    · simp only [Bool.false_eq_true, if_false]
      split
      · simp [SpaceXClient.launchesRequest]
      · split <;> simp [SpaceXClient.launchesRequest]
    · simp

/-- Claim C9: the aggregation applies no defensive filtering — a response
whose selected record lacks the `id` key, or lacks the `date_unix` key,
makes `get_heaviest_launch` raise `KeyError`, while `get_launches` silently
drops the same records. -/
theorem claim_C9_no_defensive_filtering :
    (client0.get_heaviest_launch none none
      (fun _ => .response 200 [noIdDoc])).result = .error .keyError ∧
    (client0.get_heaviest_launch none none
      (fun _ => .response 200 [noDateDoc])).result = .error .keyError ∧
    (client0.get_launches none none
      (fun _ => .response 200 [noIdDoc])).result = .ok [] ∧
    (client0.get_launches none none
      (fun _ => .response 200 [noDateDoc])).result = .ok [] := by
  exact ⟨rfl, rfl, rfl, rfl⟩

theorem launchesOfDocs_eq (docs : List Doc) :
    launchesOfDocs docs = (docs.filter wellFormedDoc).map mkLaunch := by
  induction docs with
  | nil => rfl
  | cons d ds ih =>
    rw [launchesOfDocs, List.filterMap_cons, List.filter_cons]
    cases hid : d.id <;> cases hdu : d.date_unix <;>
      simp [wellFormedDoc, PyField.isVal, hid, hdu, mkLaunch, ← ih, launchesOfDocs]

/-- Claim C6: on any successful response, `get_launches` returns exactly the
well-formed records (identifier and timestamp both present), mapped in the
response order with no reordering, and every returned `Launch` has its total
mass unset. -/
theorem claim_C6_listing_mapping (c : SpaceXClient) (s e : Option PyDate)
    (docs : List Doc) (h : shortCircuits s e = false) :
    (c.get_launches s e (fun _ => .response 200 docs)).result =
      .ok (launchesOfDocs docs) ∧
    launchesOfDocs docs = (docs.filter wellFormedDoc).map mkLaunch ∧
    ∀ L ∈ launchesOfDocs docs, L.total_payload_mass_kg = none := by
  refine ⟨?_, launchesOfDocs_eq docs, ?_⟩
  · simp [SpaceXClient.get_launches, h, raise_for_status_200]
  · intro L hL
    rw [launchesOfDocs_eq] at hL
    obtain ⟨d, _, rfl⟩ := List.mem_map.mp hL
    rfl

/-- Witness for C6: an unbounded query over one malformed and two well-formed
records. -/
theorem claim_C6_listing_mapping_witness :
    shortCircuits none none = false ∧
    ((client0.get_launches none none
        (fun _ => .response 200 [nullOnlyDoc, noIdDoc, twoPayloadDoc])).result =
      .ok (launchesOfDocs [nullOnlyDoc, noIdDoc, twoPayloadDoc]) ∧
    launchesOfDocs [nullOnlyDoc, noIdDoc, twoPayloadDoc] =
      (([nullOnlyDoc, noIdDoc, twoPayloadDoc].filter wellFormedDoc).map mkLaunch) ∧
    ∀ L ∈ launchesOfDocs [nullOnlyDoc, noIdDoc, twoPayloadDoc],
      L.total_payload_mass_kg = none) :=
  ⟨rfl, claim_C6_listing_mapping client0 none none _ rfl⟩

/-- Claim C10: `get_launches` stores the raw `payloads` list of each kept
record verbatim in `payload_ids` (with the empty list substituted for a null
or missing field), without inspecting or unwrapping the elements: on a
response with an expanded dict payload, the dict appears unchanged inside
`payload_ids`. -/
theorem claim_C10_raw_payloads :
    (∀ docs : List Doc, (launchesOfDocs docs).map Launch.payload_ids =
      (docs.filter wellFormedDoc).map fun d => pyOrEmpty d.payloads) ∧
    pyOrEmpty .null = [] ∧ pyOrEmpty .missing = [] ∧
    launchesOfDocs [dictPayloadDoc] =
      [{ id := some "LAUNCH_D", launch_time := 100,
         payload_ids := [.pdict (.val "PAY_D") (.val (.num 5100)) 0, .str "PAY_S"] }] := by
  refine ⟨?_, rfl, rfl, rfl⟩
  intro docs
  rw [launchesOfDocs_eq, List.map_map]
  rfl

theorem selectLoop_cons_ok {d : Doc} {m : ℚ} (h : totalMass d = .ok m)
    (ds : List Doc) (acc : Option Doc × Option ℚ) :
    selectLoop (d :: ds) acc =
      match acc with
      | (_, none) => selectLoop ds (some d, some m)
      | (hd, some hm) =>
        if hm < m then selectLoop ds (some d, some m)
        else selectLoop ds (hd, some hm) := by
  simp only [selectLoop, h]
  rfl

theorem selectLoop_spec (l : List Doc) : ∀ w0 : Doc,
    (∀ d ∈ l, massOk d = true) →
    ∃ w, selectLoop l (some w0, some (massF w0)) = .ok (some w, some (massF w)) ∧
      FirstStrictMax massF (w0 :: l) w := by
  induction l with
  | nil =>
    intro w0 _
    exact ⟨w0, rfl, [], [], rfl, by simp, by simp⟩
  | cons d ds ih =>
    intro w0 hok
    have hdm : totalMass d = .ok (massF d) :=
      massOk_eq (hok d (List.mem_cons_self d ds))
    have hds : ∀ x ∈ ds, massOk x = true :=
      fun x hx => hok x (List.mem_cons_of_mem d hx)
    rw [selectLoop_cons_ok hdm]
    by_cases hlt : massF w0 < massF d
    · obtain ⟨w, heq, p, q, hdec, hp, hq⟩ := ih d hds
      have hdw : massF d ≤ massF w := by
        have hdmem : d ∈ p ++ w :: q := by
          rw [← hdec]; exact List.mem_cons_self d ds
        rcases List.mem_append.mp hdmem with hmem | hmem
        · exact le_of_lt (hp d hmem)
        · rcases List.mem_cons.mp hmem with rfl | hmem
          · exact le_refl _
          · exact hq d hmem
      refine ⟨w, ?_, w0 :: p, q, ?_, ?_, hq⟩
      · simpa [hlt] using heq
      · rw [List.cons_append, ← hdec]
      · intro x hx
        rcases List.mem_cons.mp hx with rfl | hxp
        · exact lt_of_lt_of_le hlt hdw
        · exact hp x hxp
    · obtain ⟨w, heq, p, q, hdec, hp, hq⟩ := ih w0 hds
      cases p with
      | nil =>
        simp only [List.nil_append] at hdec
        injection hdec with h1 h2
        subst h1
        subst h2
        refine ⟨w0, by simpa [hlt] using heq, [], d :: ds, rfl, by simp, ?_⟩
        intro x hx
        rcases List.mem_cons.mp hx with rfl | hxq
        · exact le_of_not_lt hlt
        · exact hq x hxq
      | cons a p' =>
        rw [List.cons_append] at hdec
        injection hdec with h1 h2
        subst h1
        have hw0w : massF w0 < massF w := hp w0 (List.mem_cons_self w0 p')
        refine ⟨w, by simpa [hlt] using heq, w0 :: d :: p', q, ?_, ?_, hq⟩
        · rw [h2]; simp
        · intro x hx
          rcases List.mem_cons.mp hx with rfl | hx
          · exact hw0w
          · rcases List.mem_cons.mp hx with rfl | hx
            · exact lt_of_le_of_lt (le_of_not_lt hlt) hw0w
            · exact hp x (List.mem_cons_of_mem w0 hx)

theorem select_first_max {docs : List Doc} (hne : docs ≠ [])
    (hok : ∀ d ∈ docs, massOk d = true) :
    ∃ w, selectHeaviest docs = .ok (some w, some (massF w)) ∧
      FirstStrictMax massF docs w := by
  match docs, hne with
  | d :: ds, _ =>
    have hdm : totalMass d = .ok (massF d) :=
      massOk_eq (hok d (List.mem_cons_self d ds))
    obtain ⟨w, heq, hfsm⟩ :=
      selectLoop_spec ds d (fun x hx => hok x (List.mem_cons_of_mem d hx))
    refine ⟨w, ?_, hfsm⟩
    rw [selectHeaviest, selectLoop_cons_ok hdm]
    exact heq

/-- Claim C2: on a non-empty response whose total masses all compute, the
selection loop returns the first candidate, in response order, whose total
payload mass attains the maximum: every earlier candidate has a strictly
smaller total and no later candidate exceeds it (so an equal-mass later
candidate — timestamps being irrelevant to the loop — never replaces it). -/
theorem claim_C2_first_strict_max (docs : List Doc) (hne : docs ≠ [])
    (hok : ∀ d ∈ docs, massOk d = true) :
    ∃ w, selectHeaviest docs = .ok (some w, some (massF w)) ∧
      FirstStrictMax massF docs w :=
  select_first_max hne hok

/-- Witness for C2: two candidates with equal total mass 7 and equal
timestamps. -/
theorem claim_C2_first_strict_max_witness :
    ([tieDocA, tieDocB] ≠ ([] : List Doc)) ∧
    (∀ d ∈ [tieDocA, tieDocB], massOk d = true) ∧
    ∃ w, selectHeaviest [tieDocA, tieDocB] = .ok (some w, some (massF w)) ∧
      FirstStrictMax massF [tieDocA, tieDocB] w :=
  ⟨by decide, by decide, claim_C2_first_strict_max _ (by decide) (by decide)⟩

theorem massFoldlM (l : List PyVal) : ∀ acc : ℚ,
    (∀ p ∈ l, safeMass p = true) →
    l.foldlM massStep acc = .ok (acc + (l.map specContrib).sum) := by
  induction l with
  | nil => intro acc _; simp; rfl
  | cons p l ih =>
    intro acc hl
    have hp := hl p (List.mem_cons_self p l)
    have hl' : ∀ x ∈ l, safeMass x = true :=
      fun x hx => hl x (List.mem_cons_of_mem p hx)
    rw [List.foldlM_cons]
    cases p with
    | str s =>
      show l.foldlM massStep acc = _
      rw [ih acc hl']
      simp [specContrib, add_assoc]
    | pynone =>
      show l.foldlM massStep acc = _
      rw [ih acc hl']
      simp [specContrib, add_assoc]
    | pdict i mass ex =>
      cases mass with
      | missing =>
        show l.foldlM massStep (acc + 0) = _
        rw [ih _ hl']
        simp [specContrib, add_assoc]
      | null =>
        show l.foldlM massStep (acc + 0) = _
        rw [ih _ hl']
        simp [specContrib, add_assoc]
      | val v =>
        cases v with
        | num q =>
          show l.foldlM massStep (acc + q) = _
          rw [ih _ hl']
          simp [specContrib, add_assoc]
        | str s =>
          have hs : s = "" := by simpa [safeMass] using hp
          subst hs
          show l.foldlM massStep (acc + 0) = _
          rw [ih _ hl']
          simp [specContrib, add_assoc]

/-- Counterexample to C4 as stated: a payload whose `mass_kg` is the
non-numeric string "heavy" does not contribute 0.0 — `float()` raises
`ValueError` and `get_heaviest_launch` propagates it. -/
theorem claim_C4_counterexample :
    totalMass badMassDoc = .error .valueError ∧
    (client0.get_heaviest_launch none none
      (fun _ => .response 200 [badMassDoc])).result = .error .valueError := by
  exact ⟨rfl, rfl⟩

/-- Claim C4 as amended: the total payload mass of a record sums its payload
references, with a null or missing mass, a bare identifier reference, or any
non-dict entry contributing 0.0 and an expanded numeric mass its value, and
raises no error — provided no mass value is a nonempty string; a nonempty
string is passed to `float()`, which raises `ValueError` when the string is
not numeric. -/
theorem claim_C4_mass_sum (d : Doc)
    (h : ∀ p ∈ pyOrEmpty d.payloads, safeMass p = true) :
    totalMass d = .ok (((pyOrEmpty d.payloads).map specContrib).sum) := by
  rw [totalMass, massFoldlM _ 0 h, zero_add]

/-- Witness for C4 as amended: a record mixing null, numeric, bare-string and
missing-mass payload entries sums to 3. -/
theorem claim_C4_mass_sum_witness :
    (∀ p ∈ pyOrEmpty mixedDoc.payloads, safeMass p = true) ∧
    totalMass mixedDoc = .ok (((pyOrEmpty mixedDoc.payloads).map specContrib).sum) :=
  ⟨by decide, claim_C4_mass_sum mixedDoc (by decide)⟩

theorem heaviestOfDocs_sel {docs : List Doc} (hne : docs ≠ [])
    {w : Doc} {hm : Option ℚ} (hsel : selectHeaviest docs = .ok (some w, hm)) :
    heaviestOfDocs docs =
      if !docTruthy w then .ok none
      else
        (intItem w.date_unix).bind fun du =>
          ((pyOrEmpty w.payloads).mapM unwrapPayload).bind fun pids =>
            (strItem w.id).bind fun idv =>
              .ok (some { id := idv, launch_time := du, payload_ids := pids,
                          total_payload_mass_kg := hm }) := by
  have hne' : docs.isEmpty = false := by
    cases docs with
    | nil => exact absurd rfl hne
    | cons a l => rfl
  rw [heaviestOfDocs, hne', hsel]
  simp [Except.bind]

/-- Counterexample to C5 as stated: a response holding exactly one record —
the empty dict — is a non-empty record list, yet `get_heaviest_launch`
returns the absent result (the empty winner is falsy, so
`if not heaviest_doc` fires). -/
theorem claim_C5_counterexample :
    ([emptyDoc] ≠ ([] : List Doc)) ∧
    shortCircuits none none = false ∧
    (client0.get_heaviest_launch none none
      (fun _ => .response 200 [emptyDoc])).result = .ok none := by
  exact ⟨by decide, rfl, rfl⟩

/-- Claim C5 as amended: when not short-circuited (and the total masses all
compute), `get_heaviest_launch` returns the absent result iff the query
returned zero records or the winning record has no fields at all (a falsy
empty dict); and whenever the winning record is truthy and carries a
timestamp and an identifier and its payloads all unwrap, the result is the
`Launch` built from it — `payload_ids` in the response payload order with
expanded records unwrapped to their identifier and bare strings passed
through, and `total_payload_mass_kg` the computed sum. -/
theorem claim_C5_result_construction (c : SpaceXClient) (s e : Option PyDate)
    (docs : List Doc) (h : shortCircuits s e = false)
    (hok : ∀ d ∈ docs, massOk d = true) :
    ((c.get_heaviest_launch s e (fun _ => .response 200 docs)).result = .ok none ↔
      docs = [] ∨ ∃ w, selectHeaviest docs = .ok (some w, some (massF w)) ∧
        docTruthy w = false) ∧
    (∀ w du i pids, selectHeaviest docs = .ok (some w, some (massF w)) →
      docTruthy w = true → w.date_unix = .val du → w.id = .val i →
      (pyOrEmpty w.payloads).mapM unwrapPayload = .ok pids →
      (c.get_heaviest_launch s e (fun _ => .response 200 docs)).result =
        .ok (some { id := some i, launch_time := du, payload_ids := pids,
                    total_payload_mass_kg := some (massF w) })) := by
  have hres : (c.get_heaviest_launch s e (fun _ => .response 200 docs)).result =
      heaviestOfDocs docs := by
    simp [SpaceXClient.get_heaviest_launch, h, raise_for_status_200]
  rw [hres]
  cases docs with
  | nil =>
    refine ⟨by simp [heaviestOfDocs], ?_⟩
    intro w du i pids hsel
    rw [show selectHeaviest ([] : List Doc) = .ok (none, none) from rfl] at hsel
    exact absurd hsel (by simp)
  | cons d ds =>
    obtain ⟨w0, hsel0, _⟩ := select_first_max (List.cons_ne_nil d ds) hok
    refine ⟨⟨?_, ?_⟩, ?_⟩
    · intro hnone
      right
      refine ⟨w0, hsel0, ?_⟩
      cases hdt : docTruthy w0 with
      | false => rfl
      | true =>
        exfalso
        rw [heaviestOfDocs_sel (List.cons_ne_nil d ds) hsel0, hdt] at hnone
        simp only [Bool.not_true, Bool.false_eq_true, if_false] at hnone
        cases hdu : intItem w0.date_unix with
        | error e1 => rw [hdu] at hnone; simp [Except.bind] at hnone
        | ok du =>
          rw [hdu] at hnone
          cases hmm : (pyOrEmpty w0.payloads).mapM unwrapPayload with
          | error e2 => rw [hmm] at hnone; simp [Except.bind] at hnone
          | ok pids =>
            rw [hmm] at hnone
            cases hid : strItem w0.id with
            | error e3 => rw [hid] at hnone; simp [Except.bind] at hnone
            | ok idv => rw [hid] at hnone; simp [Except.bind] at hnone
    · intro hcase
      rcases hcase with hnil | ⟨w, hsel, hdt⟩
      · exact absurd hnil (List.cons_ne_nil d ds)
      · rw [heaviestOfDocs_sel (List.cons_ne_nil d ds) hsel, hdt]
        rfl
    · intro w du i pids hsel hdt hdu hid hmm
      rw [heaviestOfDocs_sel (List.cons_ne_nil d ds) hsel, hdt, hdu, hid, hmm]
      simp [Except.bind, intItem, strItem]

/-- Witness for C5 as amended: the null-mass record and the 2.0 kg record;
the second wins, no absent result, and the built `Launch` carries the
unwrapped payload identifiers and the total mass 2. -/
theorem claim_C5_result_construction_witness :
    shortCircuits none none = false ∧
    (∀ d ∈ [nullOnlyDoc, twoPayloadDoc], massOk d = true) ∧
    (((client0.get_heaviest_launch none none
        (fun _ => .response 200 [nullOnlyDoc, twoPayloadDoc])).result = .ok none ↔
      [nullOnlyDoc, twoPayloadDoc] = [] ∨
        ∃ w, selectHeaviest [nullOnlyDoc, twoPayloadDoc] =
            .ok (some w, some (massF w)) ∧ docTruthy w = false) ∧
    (∀ w du i pids, selectHeaviest [nullOnlyDoc, twoPayloadDoc] =
        .ok (some w, some (massF w)) →
      docTruthy w = true → w.date_unix = .val du → w.id = .val i →
      (pyOrEmpty w.payloads).mapM unwrapPayload = .ok pids →
      (client0.get_heaviest_launch none none
        (fun _ => .response 200 [nullOnlyDoc, twoPayloadDoc])).result =
        .ok (some { id := some i, launch_time := du, payload_ids := pids,
                    total_payload_mass_kg := some (massF w) }))) :=
  ⟨rfl, by decide,
    claim_C5_result_construction client0 none none [nullOnlyDoc, twoPayloadDoc]
      rfl (by decide)⟩

end IMC
